import Mathlib

/-
Verification of the mcp-sail-operator server against its specification.

The Go handlers are shallowly embedded as pure Lean functions.  Cluster
interaction is modelled by passing the outcome of each cluster-client call
(a success value or an error message) as an explicit argument; real time is
modelled by passing the already-elapsed age in seconds.  Go strings are
modelled as Lean strings, Go byte slicing as slicing on the character data,
Go maps (for labels and the pod metadata maps) as association lists looked
up with first-match semantics and returning the empty string on a miss,
and a possibly-nil Go map as an Option of such a list.
-/

namespace SailOp

/-! ## Data model: pkg/types -/

/-- Mirror of types.ResourceCondition: a condition copied from a custom
resource status block. -/
structure ResourceCondition where
  type : String
  status : String
  reason : String
  message : String
deriving DecidableEq, Repr

/-- A Sail-Operator custom-resource instance as seen by the health checker
after the unstructured field lookups: its name and namespace, the parsed
entries of status.conditions, and the status.state string when present. -/
structure CRInstance where
  name : String
  nspace : String
  conditions : List ResourceCondition
  state : Option String
deriving DecidableEq, Repr

/-- Mirror of types.HealthCheckResult. -/
structure HealthCheckResult where
  component : String
  status : String
  reason : String
  issues : List String
  conditions : List ResourceCondition
deriving DecidableEq, Repr

/-- Outcome of a dynamic-client List call: a not-found error (the
errors.IsNotFound branch), any other error, or the listed items. -/
inductive ListOutcome (α : Type) where
  | notFoundErr (msg : String)
  | otherErr (msg : String)
  | ok (items : List α)
deriving DecidableEq, Repr

/-! ## Health aggregation: handlers/sailoperator (checkComponentHealth,
analyzeResourceHealth, CheckSailOperatorHealth) -/

/-- The resource identifier used in issue messages: name, prefixed by
the namespace and a slash when the namespace is nonempty. -/
def resourceId (r : CRInstance) : String :=
  if r.nspace = "" then r.name else r.nspace ++ "/" ++ r.name

/-- Appends the condition reason in parentheses when it is nonempty,
as the Go code does for each issue string. -/
def withReason (issue reason : String) : String :=
  if reason = "" then issue else issue ++ " (" ++ reason ++ ")"

/-- A condition makes the resource unhealthy when its type is one of the
three critical types and its status is not the string True. -/
def condUnhealthy (c : ResourceCondition) : Bool :=
  (c.type == "Ready" || c.type == "Reconciled" || c.type == "DependenciesHealthy")
    && c.status != "True"

/-- The issue strings contributed by one condition, in the order the Go
loop appends them. -/
def condIssues (rid : String) (c : ResourceCondition) : List String :=
  (if c.type == "Ready" && c.status != "True" then
    [withReason (rid ++ " is not ready") c.reason] else [])
  ++ (if c.type == "Reconciled" && c.status != "True" then
    [withReason (rid ++ " reconciliation failed") c.reason] else [])
  ++ (if c.type == "DependenciesHealthy" && c.status != "True" then
    [withReason (rid ++ " has unhealthy dependencies") c.reason] else [])

/-- Result triple of analyzeResourceHealth. -/
structure HealthAnalysis where
  isHealthy : Bool
  issues : List String
  conditions : List ResourceCondition
deriving DecidableEq, Repr

/-- Mirror of analyzeResourceHealth: the resource is healthy unless some
critical condition is not True or the status.state field is present and
differs from Healthy; issue strings accumulate in loop order, with the
state issue last. -/
def analyzeResourceHealth (r : CRInstance) : HealthAnalysis :=
  let rid := resourceId r
  let condBad := r.conditions.any condUnhealthy
  let condIss := r.conditions.flatMap (condIssues rid)
  let stateBad :=
    match r.state with
    | some s => s != "Healthy"
    | none => false
  let stateIss : List String :=
    match r.state with
    | some s => if s != "Healthy" then [rid ++ " state is " ++ s] else []
    | none => []
  { isHealthy := !(condBad || stateBad),
    issues := condIss ++ stateIss,
    conditions := r.conditions }

/-- Mirror of checkComponentHealth: classifies one component kind from the
outcome of listing its instances.  The result starts as NotFound with empty
issues; a not-found list error leaves that status, another error gives
Error, an empty list gives NotInstalled, and otherwise the instances are
analyzed and the status set by the healthy-to-total ratio. -/
def checkComponentHealth (componentName : String)
    (outcome : ListOutcome CRInstance) : HealthCheckResult :=
  match outcome with
  | .notFoundErr _ =>
    { component := componentName, status := "NotFound",
      reason := "CRD not installed",
      issues := [componentName ++ " CRD is not installed or not accessible"],
      conditions := [] }
  | .otherErr msg =>
    { component := componentName, status := "Error", reason := "Query failed",
      issues := ["Failed to query " ++ componentName ++ " resources: " ++ msg],
      conditions := [] }
  | .ok items =>
    if items.length = 0 then
      { component := componentName, status := "NotInstalled",
        reason := "No resources found",
        issues := ["No " ++ componentName ++ " resources are installed"],
        conditions := [] }
    else
      let analyses := items.map analyzeResourceHealth
      let totalResources := items.length
      let healthyResources := analyses.countP (fun a => a.isHealthy)
      let resourceIssues := analyses.flatMap (fun a => a.issues)
      let allConditions := analyses.flatMap (fun a => a.conditions)
      if healthyResources = totalResources then
        { component := componentName, status := "Healthy",
          reason := "All " ++ toString totalResources ++ " resources healthy",
          issues := [], conditions := allConditions }
      else if healthyResources > 0 then
        { component := componentName, status := "Degraded",
          reason := toString healthyResources ++ "/" ++ toString totalResources
            ++ " resources healthy",
          issues := resourceIssues, conditions := allConditions }
      else
        { component := componentName, status := "Unhealthy",
          reason := "0/" ++ toString totalResources ++ " resources healthy",
          issues := resourceIssues, conditions := allConditions }

/-- The overall-health reduction in CheckSailOperatorHealth: the variable
starts as Healthy, becomes Unhealthy when no component is healthy and
Degraded when some but not all are. -/
def overallHealth (healthyCount totalCount : Nat) : String :=
  if healthyCount = 0 then "Unhealthy"
  else if healthyCount < totalCount then "Degraded"
  else "Healthy"

/-- Return of the health-check tool relevant to the claims: the per-kind
results, the overall status, and the Go-level error (always nil in the
source). -/
structure SailHealthReturn where
  components : List HealthCheckResult
  overall : String
  goError : Option String
deriving DecidableEq, Repr

/-- Mirror of CheckSailOperatorHealth: checks the four component kinds and
reduces their statuses to an overall status.  The Go code iterates a map,
so the order of the four checks is unspecified; the counts it computes are
order-independent and are modelled over a fixed enumeration. -/
def checkSailOperatorHealth (oIstio oRevision oCNI oZTunnel : ListOutcome CRInstance) :
    SailHealthReturn :=
  let comps := [checkComponentHealth "Istio" oIstio,
                checkComponentHealth "IstioRevision" oRevision,
                checkComponentHealth "IstioCNI" oCNI,
                checkComponentHealth "ZTunnel" oZTunnel]
  let totalCount := comps.length
  let healthyCount := comps.countP (fun c => c.status == "Healthy")
  { components := comps,
    overall := overallHealth healthyCount totalCount,
    goError := none }

/-! ## Core-resource handlers: pkg/handlers/k8s/resources.go -/

/-- Go fmt left-aligned width padding, as in the %-Ns verbs: pad with
spaces up to the width, never truncating. -/
def padRight (s : String) (w : Nat) : String :=
  s ++ String.mk (List.replicate (w - s.length) ' ')

/-- Mirror of truncateString: strings at most maxLen long are returned
unchanged, longer ones are cut to maxLen - 3 characters with an ellipsis
appended. -/
def truncateString (s : String) (maxLen : Nat) : String :=
  if s.length ≤ maxLen then s
  else String.mk (s.data.take (maxLen - 3)) ++ "..."

/-- Mirror of formatAge over the elapsed duration in whole seconds. -/
def formatAge (ageSeconds : Nat) : String :=
  if ageSeconds < 60 then toString ageSeconds ++ "s"
  else if ageSeconds < 3600 then toString (ageSeconds / 60) ++ "m"
  else if ageSeconds < 86400 then toString (ageSeconds / 3600) ++ "h"
  else toString (ageSeconds / 86400) ++ "d"

/-- One entry of pod.Status.ContainerStatuses. -/
structure ContainerStatus where
  name : String
  ready : Bool
  restartCount : Nat
deriving DecidableEq, Repr

/-- A pod as consumed by the handlers: metadata, the names of the spec
containers, the container statuses, and the metadata maps.  The
annotations map is optional because a Go map can be nil. -/
structure Pod where
  name : String
  nspace : String
  phase : String
  nodeName : String
  podIP : String
  labels : List (String × String)
  containers : List String
  containerStatuses : List ContainerStatus
  annos : Option (List (String × String))
  createdAt : String
  ageSeconds : Nat
deriving DecidableEq, Repr

/-- Mirror of types.PodInfo. -/
structure PodInfo where
  name : String
  nspace : String
  status : String
  phase : String
  nodeName : String
  podIP : String
  labels : List (String × String)
  ready : String
  restarts : Nat
  age : String
  createdAt : String
deriving DecidableEq, Repr

/-- The per-pod summary built inside ListPods: ready and total container
counts, summed restarts, and the derived display status. -/
def podInfoOf (pod : Pod) : PodInfo :=
  let readyCount := pod.containerStatuses.countP (fun cs => cs.ready)
  let totalCount := pod.containerStatuses.length
  let restarts := (pod.containerStatuses.map (fun cs => cs.restartCount)).sum
  let status :=
    if pod.phase = "Running" ∧ readyCount = totalCount then "Running"
    else if pod.phase = "Pending" then "Pending"
    else if pod.phase = "Failed" then "Failed"
    else if pod.phase = "Succeeded" then "Completed"
    else pod.phase
  { name := pod.name, nspace := pod.nspace, status := status,
    phase := pod.phase, nodeName := pod.nodeName, podIP := pod.podIP,
    labels := pod.labels,
    ready := toString readyCount ++ "/" ++ toString totalCount,
    restarts := restarts, age := formatAge pod.ageSeconds,
    createdAt := pod.createdAt }

/-- One row of the ListPods table. -/
def podRow (p : PodInfo) : String :=
  padRight (truncateString p.name 29) 30 ++ " " ++ padRight p.nspace 15 ++ " "
    ++ padRight p.status 10 ++ " " ++ padRight p.ready 8 ++ " "
    ++ padRight (toString p.restarts) 10 ++ " " ++ padRight p.age 10 ++ " "
    ++ p.nodeName ++ "\n"

/-- The ListPods table header and separator line. -/
def listPodsHeader : String :=
  padRight "NAME" 30 ++ " " ++ padRight "NAMESPACE" 15 ++ " "
    ++ padRight "STATUS" 10 ++ " " ++ padRight "READY" 8 ++ " "
    ++ padRight "RESTARTS" 10 ++ " " ++ padRight "AGE" 10 ++ " " ++ "NODE"
    ++ "\n" ++ String.mk (List.replicate 100 '-') ++ "\n"

/-- The text block built by ListPods. -/
def listPodsText (nspaceArg labelSelector : String) (infos : List PodInfo) : String :=
  if infos.length = 0 then
    "No pods found"
      ++ (if nspaceArg ≠ "" then " in namespace \x27" ++ nspaceArg ++ "\x27" else "")
      ++ (if labelSelector ≠ "" then
          " with label selector \x27" ++ labelSelector ++ "\x27" else "")
  else
    "Found " ++ toString infos.length ++ " pods:\n\n" ++ listPodsHeader
      ++ String.join (infos.map podRow)

/-- Mirror of types.ListPodsResult, the structured JSON record. -/
structure ListPodsResult where
  status : String
  pods : List PodInfo
  count : Nat
deriving DecidableEq, Repr

/-- What ListPods hands back: the text content, the structured record
attached as a second JSON content part on success, and the Go-level error
(always nil in the source). -/
structure ListPodsReturn where
  textOutput : String
  record : Option ListPodsResult
  goError : Option String
deriving DecidableEq, Repr

/-- Mirror of ListPods over the outcome of the pod list call. -/
def listPods (nspaceArg labelSelector : String)
    (fetch : Except String (List Pod)) : ListPodsReturn :=
  match fetch with
  | .error e =>
    { textOutput := "Error listing pods: " ++ e, record := none, goError := none }
  | .ok podItems =>
    let infos := podItems.map podInfoOf
    { textOutput := listPodsText nspaceArg labelSelector infos,
      record := some { status := "success", pods := infos, count := infos.length },
      goError := none }

/-- A cluster event as consumed by ListEvents, with the deprecated
timestamps already rendered to RFC3339 when nonzero. -/
structure Event where
  type : String
  reason : String
  note : String
  deprCount : Nat
  regardingKind : String
  regardingName : String
  regardingNspace : String
  firstSeen : Option String
  lastSeen : Option String
deriving DecidableEq, Repr

/-- Mirror of types.EventInfo. -/
structure EventInfo where
  type : String
  reason : String
  message : String
  count : Nat
  firstSeen : String
  lastSeen : String
  involvedKind : String
  involvedName : String
  involvedNspace : String
deriving DecidableEq, Repr

/-- The summary record ListEvents builds for one event. -/
def eventInfoOf (e : Event) : EventInfo :=
  { type := e.type, reason := e.reason, message := e.note,
    count := e.deprCount,
    firstSeen := e.firstSeen.getD "", lastSeen := e.lastSeen.getD "",
    involvedKind := e.regardingKind, involvedName := e.regardingName,
    involvedNspace := e.regardingNspace }

/-- The client-side filter in the ListEvents loop: an event is skipped
when a type or reason filter is set and does not match. -/
def eventKept (typeFilter reasonFilter : String) (e : Event) : Bool :=
  (typeFilter == "" || e.type == typeFilter)
    && (reasonFilter == "" || e.reason == reasonFilter)

/-- One row of the ListEvents table. -/
def eventRow (ev : EventInfo) : String :=
  let involved := ev.involvedKind
    ++ (if ev.involvedNspace ≠ "" then "/" ++ ev.involvedNspace else "")
    ++ "/" ++ ev.involvedName
  let msg :=
    if ev.message.length > 50 then String.mk (ev.message.data.take 47) ++ "..."
    else ev.message
  padRight ev.type 8 ++ " " ++ padRight ev.reason 16 ++ " "
    ++ padRight (truncateString involved 29) 30 ++ " "
    ++ padRight (toString ev.count) 12 ++ " " ++ msg ++ "\n"

/-- The ListEvents table header and separator line. -/
def listEventsHeader : String :=
  padRight "TYPE" 8 ++ " " ++ padRight "REASON" 16 ++ " "
    ++ padRight "INVOLVED" 30 ++ " " ++ padRight "COUNT" 12 ++ " " ++ "MESSAGE"
    ++ "\n" ++ String.mk (List.replicate 100 '-') ++ "\n"

/-- The text block built by ListEvents. -/
def listEventsText (events : List EventInfo) : String :=
  if events.length = 0 then "No events found"
  else
    "Found " ++ toString events.length ++ " events:\n\n" ++ listEventsHeader
      ++ String.join (events.map eventRow)

/-- Mirror of types.ListEventsResult. -/
structure ListEventsResult where
  status : String
  events : List EventInfo
  count : Nat
deriving DecidableEq, Repr

/-- What ListEvents hands back. -/
structure ListEventsReturn where
  textOutput : String
  record : Option ListEventsResult
  goError : Option String
deriving DecidableEq, Repr

/-- Mirror of ListEvents over the outcome of the event list call; the
field selectors and limit are applied by the cluster API inside that
outcome, while the type and reason filters run client-side here. -/
def listEvents (typeFilter reasonFilter : String)
    (fetch : Except String (List Event)) : ListEventsReturn :=
  match fetch with
  | .error e =>
    { textOutput := "Error listing events: " ++ e, record := none, goError := none }
  | .ok items =>
    let events := (items.filter (eventKept typeFilter reasonFilter)).map eventInfoOf
    { textOutput := listEventsText events,
      record := some { status := "success", events := events, count := events.length },
      goError := none }

/-! ## Pod logs: GetPodLogs -/

/-- Mirror of types.GetPodLogsParams. -/
structure GetPodLogsParams where
  nspace : String
  podName : String
  container : String
  lines : Int
  follow : Bool
  previous : Bool
  sinceSeconds : Int
deriving DecidableEq, Repr

/-- The corev1.PodLogOptions the handler builds for the cluster call. -/
structure LogOptions where
  follow : Bool
  previous : Bool
  container : String
  tailLines : Int
  sinceSeconds : Option Int
deriving DecidableEq, Repr

/-- What GetPodLogs hands back: the text content, the options of the
cluster call it issued (none when validation failed before any call), and
the Go-level error (always nil in the source). -/
structure GetPodLogsReturn where
  textOutput : String
  clusterCall : Option LogOptions
  goError : Option String
deriving DecidableEq, Repr

/-- Mirror of GetPodLogs: parameter validation, log-option construction,
then the stream call whose outcome is the list of scanned lines or an
error, followed by a possible scanner error. -/
def getPodLogs (p : GetPodLogsParams)
    (streamOutcome : Except String (List String))
    (scanErr : Option String) : GetPodLogsReturn :=
  if p.nspace = "" then
    { textOutput := "Error: namespace parameter is required",
      clusterCall := none, goError := none }
  else if p.podName = "" then
    { textOutput := "Error: pod_name parameter is required",
      clusterCall := none, goError := none }
  else
    let logOptions : LogOptions :=
      { follow := p.follow, previous := p.previous,
        container := if p.container ≠ "" then p.container else "",
        tailLines := if p.lines > 0 then p.lines else 50,
        sinceSeconds := if p.sinceSeconds > 0 then some p.sinceSeconds else none }
    match streamOutcome with
    | .error e =>
      { textOutput := "Error getting logs for pod \x27" ++ p.podName
          ++ "\x27 in namespace \x27" ++ p.nspace ++ "\x27: " ++ e,
        clusterCall := some logOptions, goError := none }
    | .ok logLines =>
      match scanErr with
      | some e =>
        { textOutput := "Error reading logs for pod \x27" ++ p.podName
            ++ "\x27 in namespace \x27" ++ p.nspace ++ "\x27: " ++ e,
          clusterCall := some logOptions, goError := none }
      | none =>
        let text :=
          if logLines.length = 0 then
            "No logs found for pod \x27" ++ p.podName ++ "\x27 in namespace \x27"
              ++ p.nspace ++ "\x27"
              ++ (if p.container ≠ "" then
                  " (container: " ++ p.container ++ ")" else "")
          else
            "=== Logs for pod \x27" ++ p.podName ++ "\x27 in namespace \x27"
              ++ p.nspace ++ "\x27 ==="
              ++ (if p.container ≠ "" then
                  " (container: " ++ p.container ++ ")" else "")
              ++ "\nShowing last " ++ toString logLines.length ++ " lines:\n\n"
              ++ String.intercalate "\n" logLines
        { textOutput := text, clusterCall := some logOptions, goError := none }

/-! ## Namespace details: GetNamespaceDetails -/

/-- A namespace object as consumed by the handler. -/
structure NamespaceObj where
  name : String
  phase : String
  createdAt : String
  labels : List (String × String)
  annos : List (String × String)
deriving DecidableEq, Repr

/-- Mirror of types.NamespaceDetail. -/
structure NamespaceDetail where
  name : String
  status : String
  createdAt : String
  labels : List (String × String)
  annos : List (String × String)
deriving DecidableEq, Repr

/-- The detail record built for one namespace. -/
def namespaceDetailOf (ns : NamespaceObj) : NamespaceDetail :=
  { name := ns.name, status := ns.phase, createdAt := ns.createdAt,
    labels := ns.labels, annos := ns.annos }

/-- Go fmt %v rendering of a string map, modelled over the entry list in
its given order. -/
def goMapStr (m : List (String × String)) : String :=
  "map[" ++ String.intercalate " " (m.map (fun kv => kv.1 ++ ":" ++ kv.2)) ++ "]"

/-- The text block built by GetNamespaceDetails: a single-namespace
detailed form, or a bulleted multi-namespace form. -/
def formatNsDetails (details : List NamespaceDetail) : String :=
  match details with
  | [ns] =>
    "Namespace: " ++ ns.name ++ "\nStatus: " ++ ns.status ++ "\nCreated: "
      ++ ns.createdAt ++ "\nLabels: " ++ goMapStr ns.labels
      ++ "\nAnnotations: " ++ goMapStr ns.annos
  | _ =>
    "Found " ++ toString details.length ++ " namespaces with details:\n"
      ++ String.join (details.map (fun ns =>
          "\n• " ++ ns.name ++ " (Status: " ++ ns.status ++ ", Created: "
            ++ ns.createdAt ++ ")\n  Labels: " ++ goMapStr ns.labels
            ++ "\n  Annotations: " ++ goMapStr ns.annos ++ "\n"))

/-- What GetNamespaceDetails hands back. -/
structure GetNamespaceDetailsReturn where
  textOutput : String
  nsDetails : List NamespaceDetail
  goError : Option String
deriving DecidableEq, Repr

/-- Mirror of GetNamespaceDetails: a nonempty namespace argument gets that
one namespace, an empty argument lists all; the two cluster-call outcomes
are passed explicitly and only the one the handler uses matters. -/
def getNamespaceDetails (nspaceArg : String)
    (getOutcome : Except String NamespaceObj)
    (listOutcome : Except String (List NamespaceObj)) : GetNamespaceDetailsReturn :=
  if nspaceArg ≠ "" then
    match getOutcome with
    | .error e =>
      { textOutput := "Error getting namespace " ++ nspaceArg ++ ": " ++ e,
        nsDetails := [], goError := none }
    | .ok ns =>
      let details := [namespaceDetailOf ns]
      { textOutput := formatNsDetails details, nsDetails := details, goError := none }
  else
    match listOutcome with
    | .error e =>
      { textOutput := "Error listing namespaces: " ++ e,
        nsDetails := [], goError := none }
    | .ok nsList =>
      let details := nsList.map namespaceDetailOf
      { textOutput := formatNsDetails details, nsDetails := details, goError := none }

/-! ## Mesh workload analysis: analyzePodMeshStatus -/

/-- Mirror of types.WorkloadInfo. -/
structure WorkloadInfo where
  name : String
  nspace : String
  kind : String
  sidecarInjected : Bool
  sidecarReady : Bool
  meshStatus : String
  labels : List (String × String)
  annos : Option (List (String × String))
  issues : List String
deriving DecidableEq, Repr

/-- Go map indexing over an entry list: the first matching value, or the
empty string on a miss. -/
def goMapGet (m : List (String × String)) (k : String) : String :=
  match m.find? (fun kv => kv.1 == k) with
  | some kv => kv.2
  | none => ""

/-- Go strings.Contains: some suffix of s starts with pat. -/
def goStringContains (s pat : String) : Bool :=
  (List.range (s.length + 1)).any (fun i => pat.isPrefixOf (s.drop i))

/-- Mirror of analyzePodMeshStatus: detects the istio-proxy sidecar
container, its readiness, and inconsistencies with the injection and
status metadata entries, then derives the mesh status. -/
def analyzePodMeshStatus (pod : Pod) : WorkloadInfo :=
  let sidecarInjected := pod.containers.any (fun c => c == "istio-proxy")
  let readyPair : Bool × List String :=
    if sidecarInjected then
      match pod.containerStatuses.find? (fun cs => cs.name == "istio-proxy") with
      | some cs => (cs.ready, if !cs.ready then ["Istio sidecar not ready"] else [])
      | none => (false, [])
    else (false, [])
  let sidecarReady := readyPair.1
  let annoIssues : List String :=
    match pod.annos with
    | none => []
    | some annos =>
      let injectionAnno := goMapGet annos "sidecar.istio.io/inject"
      let injIssues : List String :=
        if injectionAnno == "false" && sidecarInjected then
          ["Pod has sidecar despite injection disabled"]
        else if injectionAnno == "true" && !sidecarInjected then
          ["Pod missing sidecar despite injection enabled"]
        else []
      let statusFind := annos.find? (fun kv => kv.1 == "sidecar.istio.io/status")
      let statusAnno := match statusFind with | some kv => kv.2 | none => ""
      let statusIssues : List String :=
        if statusFind.isSome && sidecarInjected then
          if !(goStringContains statusAnno "istio-proxy") then
            ["Istio status annotation missing proxy information"]
          else []
        else if sidecarInjected && statusAnno == "" then
          ["Missing istio status annotation"]
        else []
      injIssues ++ statusIssues
  let meshStatus :=
    if sidecarInjected && sidecarReady then "In Mesh"
    else if sidecarInjected && !sidecarReady then "Mesh Issues"
    else "Not in Mesh"
  { name := pod.name, nspace := pod.nspace, kind := "Pod",
    sidecarInjected := sidecarInjected, sidecarReady := sidecarReady,
    meshStatus := meshStatus, labels := pod.labels, annos := pod.annos,
    issues := readyPair.2 ++ annoIssues }

/-! ## Spec-side predicates and concrete fixtures -/

/-- The specification wording of a healthy instance: every condition of
one of the three critical types has status True, and the state field, if
present, equals Healthy. -/
def instanceHealthySpec (r : CRInstance) : Prop :=
  (∀ c ∈ r.conditions,
    (c.type = "Ready" ∨ c.type = "Reconciled" ∨ c.type = "DependenciesHealthy") →
      c.status = "True")
  ∧ ∀ s, r.state = some s → s = "Healthy"

/-- A fully healthy concrete instance. -/
def instHealthy : CRInstance :=
  { name := "default", nspace := "istio-system",
    conditions := [{ type := "Ready", status := "True", reason := "", message := "" },
                   { type := "Reconciled", status := "True", reason := "", message := "" }],
    state := some "Healthy" }

/-- A concrete instance with a failing Ready condition. -/
def instNotReady : CRInstance :=
  { name := "default", nspace := "istio-system",
    conditions := [{ type := "Ready", status := "False",
                     reason := "IstiodNotReady", message := "" }],
    state := some "Reconciling" }

/-- A concrete pod carrying the istio-proxy sidecar while injection is
disabled by its metadata. -/
def podSidecarDisabled : Pod :=
  { name := "web-1", nspace := "shop", phase := "Running", nodeName := "n1",
    podIP := "10.0.0.1", labels := [],
    containers := ["app", "istio-proxy"],
    containerStatuses := [{ name := "app", ready := true, restartCount := 0 },
                          { name := "istio-proxy", ready := true, restartCount := 0 }],
    annos := some [("sidecar.istio.io/inject", "false")],
    createdAt := "t0", ageSeconds := 30 }

/-- A concrete pod with injection enabled but no sidecar container. -/
def podMissingSidecar : Pod :=
  { name := "web-2", nspace := "shop", phase := "Running", nodeName := "n1",
    podIP := "10.0.0.2", labels := [],
    containers := ["app"],
    containerStatuses := [{ name := "app", ready := true, restartCount := 0 }],
    annos := some [("sidecar.istio.io/inject", "true")],
    createdAt := "t0", ageSeconds := 30 }

/-- A concrete pod with no injection metadata and no sidecar container. -/
def podPlain : Pod :=
  { name := "web-3", nspace := "shop", phase := "Running", nodeName := "n1",
    podIP := "10.0.0.3", labels := [("app", "web")],
    containers := ["app"],
    containerStatuses := [{ name := "app", ready := true, restartCount := 2 }],
    annos := some [("app.kubernetes.io/name", "web")],
    createdAt := "t0", ageSeconds := 30 }

/-- A concrete event fixture. -/
def eventPulled : Event :=
  { type := "Normal", reason := "Pulled", note := "Image pulled",
    deprCount := 1, regardingKind := "Pod", regardingName := "web-3",
    regardingNspace := "shop", firstSeen := some "2026-01-01T00:00:00Z",
    lastSeen := some "2026-01-01T00:00:00Z" }

/-- A pod name longer than the 29-character display column. -/
def longPodName : String := "checkout-gateway-7f9c4d5b6-abcdef-xyz"

/-- A concrete namespace fixture. -/
def nsShop : NamespaceObj :=
  { name := "shop", phase := "Active", createdAt := "t0",
    labels := [("team", "retail")], annos := [] }

/-- Concrete log-request parameters missing the pod name. -/
def logsParamsNoPod : GetPodLogsParams :=
  { nspace := "shop", podName := "", container := "", lines := 0,
    follow := false, previous := false, sinceSeconds := 0 }

/-- Concrete, fully validated log-request parameters. -/
def logsParamsFull : GetPodLogsParams :=
  { nspace := "shop", podName := "web-1", container := "", lines := 0,
    follow := false, previous := false, sinceSeconds := 0 }

/-- The structured record ListPods produces for the one-pod fixture. -/
def recPods : ListPodsResult :=
  { status := "success", pods := [podInfoOf podPlain], count := 1 }

/-- The structured record ListEvents produces for the one-event fixture. -/
def recEvents : ListEventsResult :=
  { status := "success", events := [eventInfoOf eventPulled], count := 1 }

end SailOp

namespace SailOp

/-! ## Helper lemmas -/

theorem countP_ne_length_iff {α : Type} (p : α → Bool) (l : List α) :
    ¬ (l.countP p = l.length) ↔ ∃ x ∈ l, ¬ p x = true := by
  rw [List.countP_eq_length]
  push_neg
  rfl

theorem countP_lt_length_iff {α : Type} (p : α → Bool) (l : List α) :
    l.countP p < l.length ↔ ∃ x ∈ l, ¬ p x = true := by
  rw [← countP_ne_length_iff]
  exact ⟨Nat.ne_of_lt, fun h => Nat.lt_of_le_of_ne (l.countP_le_length p) h⟩

theorem overallHealth_eq_iff (hc tc : Nat) (hle : hc ≤ tc) (hpos : 0 < tc) :
    (overallHealth hc tc = "Healthy" ↔ hc = tc)
    ∧ (overallHealth hc tc = "Unhealthy" ↔ hc = 0)
    ∧ (overallHealth hc tc = "Degraded" ↔ (0 < hc ∧ hc < tc)) := by
  unfold overallHealth
  by_cases h0 : hc = 0
  · subst h0
    rw [if_pos rfl]
    refine ⟨⟨fun h => absurd h (by decide), fun h => absurd hpos (by omega)⟩,
      ⟨fun _ => rfl, fun _ => rfl⟩, ⟨fun h => absurd h (by decide), by omega⟩⟩
  · rw [if_neg h0]
    by_cases hlt : hc < tc
    · rw [if_pos hlt]
      exact ⟨⟨fun h => absurd h (by decide), fun h => absurd h (by omega)⟩,
        ⟨fun h => absurd h (by decide), fun h => absurd h h0⟩,
        ⟨fun _ => ⟨Nat.pos_of_ne_zero h0, hlt⟩, fun _ => rfl⟩⟩
    · rw [if_neg hlt]
      have heq : hc = tc := Nat.le_antisymm hle (Nat.le_of_not_lt hlt)
      exact ⟨⟨fun _ => heq, fun _ => rfl⟩,
        ⟨fun h => absurd h (by decide), fun h => absurd h h0⟩,
        ⟨fun h => absurd h (by decide), fun h => absurd h.2 hlt⟩⟩

/-! ## C3: health-check failure classification (corrected) -/

/-- C3 counterexample: when the list call fails with a not-found error the
status the code reports is NotFound, not NotInstalled as claimed. -/
theorem checkComponentHealth_notFound_counterexample :
    (checkComponentHealth "Istio"
      (ListOutcome.notFoundErr "the server could not find the requested resource")).status
      = "NotFound"
    ∧ (checkComponentHealth "Istio"
      (ListOutcome.notFoundErr "the server could not find the requested resource")).status
      ≠ "NotInstalled" := by
  exact ⟨rfl, by decide⟩

/-- C3 amended: a not-found list error leaves the status NotFound with
reason CRD not installed, any other list error gives status Error, and a
successful but empty list gives status NotInstalled. -/
theorem checkComponentHealth_failure_classification (componentName msg : String) :
    ((checkComponentHealth componentName (ListOutcome.notFoundErr msg)).status = "NotFound"
      ∧ (checkComponentHealth componentName (ListOutcome.notFoundErr msg)).reason
        = "CRD not installed")
    ∧ (checkComponentHealth componentName (ListOutcome.otherErr msg)).status = "Error"
    ∧ (checkComponentHealth componentName (ListOutcome.ok [])).status = "NotInstalled" := by
  exact ⟨⟨rfl, rfl⟩, rfl, rfl⟩

/-! ## C1: per-kind health aggregation -/

theorem condUnhealthy_eq_false_iff (c : ResourceCondition) :
    condUnhealthy c = false ↔
      ((c.type = "Ready" ∨ c.type = "Reconciled" ∨ c.type = "DependenciesHealthy") →
        c.status = "True") := by
  unfold condUnhealthy
  by_cases h1 : c.status = "True"
  · simp [h1]
  · simp [h1, not_or, and_assoc]

theorem stateBadMatch_eq_false_iff (st : Option String) :
    (match st with | some s => s != "Healthy" | none => false) = false ↔
      (∀ s, st = some s → s = "Healthy") := by
  cases st with
  | none => simp
  | some s => simp

theorem analyzeResourceHealth_isHealthy_iff (r : CRInstance) :
    (analyzeResourceHealth r).isHealthy = true ↔ instanceHealthySpec r := by
  simp only [analyzeResourceHealth]
  rw [Bool.not_eq_true', Bool.or_eq_false_iff]
  unfold instanceHealthySpec
  rw [stateBadMatch_eq_false_iff]
  rw [List.any_eq_false]
  constructor
  · rintro ⟨hconds, hstate⟩
    refine ⟨fun c hc => ?_, hstate⟩
    have := hconds c hc
    rw [Bool.not_eq_true] at this
    exact (condUnhealthy_eq_false_iff c).mp this
  · rintro ⟨hconds, hstate⟩
    refine ⟨fun c hc => ?_, hstate⟩
    rw [Bool.not_eq_true]
    exact (condUnhealthy_eq_false_iff c).mpr (hconds c hc)

/-- C1: for every nonempty list of instances of one kind, the kind status
is Healthy iff all instances are healthy in the sense of the spec
(critical conditions all True and state, when present, Healthy), Degraded
iff some but not all are, and Unhealthy iff none are.  The empty list
never reaches this aggregation: it is classified NotInstalled (claim C3). -/
theorem checkComponentHealth_perKind_aggregation (componentName : String)
    (items : List CRInstance) (hne : items ≠ []) :
    (((checkComponentHealth componentName (ListOutcome.ok items)).status = "Healthy") ↔
      ∀ r ∈ items, instanceHealthySpec r)
    ∧ (((checkComponentHealth componentName (ListOutcome.ok items)).status = "Degraded") ↔
      ((∃ r ∈ items, instanceHealthySpec r) ∧ ∃ r ∈ items, ¬ instanceHealthySpec r))
    ∧ (((checkComponentHealth componentName (ListOutcome.ok items)).status = "Unhealthy") ↔
      ∀ r ∈ items, ¬ instanceHealthySpec r) := by
  have hlen0 : ¬ (items.length = 0) := by
    simpa [List.length_eq_zero] using hne
  have hpos : 0 < items.length := Nat.pos_of_ne_zero hlen0
  have hstat : (checkComponentHealth componentName (ListOutcome.ok items)).status =
      (if items.countP (fun r => (analyzeResourceHealth r).isHealthy) = items.length
       then "Healthy"
       else if 0 < items.countP (fun r => (analyzeResourceHealth r).isHealthy)
       then "Degraded"
       else "Unhealthy") := by
    simp only [checkComponentHealth]
    rw [if_neg hlen0]
    rw [apply_ite HealthCheckResult.status, apply_ite HealthCheckResult.status]
    simp only [List.countP_map, List.length_map]
    rfl
  set hc := items.countP (fun r => (analyzeResourceHealth r).isHealthy) with hhc
  have hle : hc ≤ items.length := List.countP_le_length _
  have hspec : ∀ r : CRInstance,
      ((fun r => (analyzeResourceHealth r).isHealthy) r = true ↔ instanceHealthySpec r) :=
    fun r => analyzeResourceHealth_isHealthy_iff r
  have hall : (hc = items.length) ↔ ∀ r ∈ items, instanceHealthySpec r := by
    rw [hhc, List.countP_eq_length]
    exact ⟨fun h r hr => (hspec r).mp (h r hr), fun h r hr => (hspec r).mpr (h r hr)⟩
  have hzero : (hc = 0) ↔ ∀ r ∈ items, ¬ instanceHealthySpec r := by
    rw [hhc, List.countP_eq_zero]
    exact ⟨fun h r hr hs => h r hr ((hspec r).mpr hs),
      fun h r hr hb => h r hr ((hspec r).mp hb)⟩
  have hsome : (0 < hc) ↔ ∃ r ∈ items, instanceHealthySpec r := by
    rw [hhc, List.countP_pos_iff]
    exact ⟨fun ⟨r, hr, hb⟩ => ⟨r, hr, (hspec r).mp hb⟩,
      fun ⟨r, hr, hs⟩ => ⟨r, hr, (hspec r).mpr hs⟩⟩
  have hlt : (hc < items.length) ↔ ∃ r ∈ items, ¬ instanceHealthySpec r := by
    rw [hhc, countP_lt_length_iff]
    exact ⟨fun ⟨r, hr, hb⟩ => ⟨r, hr, fun hs => hb ((hspec r).mpr hs)⟩,
      fun ⟨r, hr, hs⟩ => ⟨r, hr, fun hb => hs ((hspec r).mp hb)⟩⟩
  rw [hstat]
  refine ⟨?_, ?_, ?_⟩
  · by_cases h1 : hc = items.length
    · rw [if_pos h1]
      exact iff_of_true rfl (hall.mp h1)
    · rw [if_neg h1]
      have hnot : ¬ ∀ r ∈ items, instanceHealthySpec r := fun h => h1 (hall.mpr h)
      by_cases h2 : 0 < hc
      · rw [if_pos h2]; exact iff_of_false (by decide) hnot
      · rw [if_neg h2]; exact iff_of_false (by decide) hnot
  · by_cases h1 : hc = items.length
    · rw [if_pos h1]
      refine iff_of_false (by decide) ?_
      rintro ⟨-, r, hr, hbad⟩
      exact hbad (hall.mp h1 r hr)
    · rw [if_neg h1]
      by_cases h2 : 0 < hc
      · rw [if_pos h2]
        refine iff_of_true rfl ⟨hsome.mp h2, ?_⟩
        exact hlt.mp (Nat.lt_of_le_of_ne hle h1)
      · rw [if_neg h2]
        refine iff_of_false (by decide) ?_
        rintro ⟨hex, -⟩
        exact h2 (hsome.mpr hex)
  · by_cases h1 : hc = items.length
    · rw [if_pos h1]
      refine iff_of_false (by decide) ?_
      intro h
      obtain ⟨r, hr⟩ := List.exists_mem_of_ne_nil items hne
      exact h r hr (hall.mp h1 r hr)
    · rw [if_neg h1]
      by_cases h2 : 0 < hc
      · rw [if_pos h2]
        refine iff_of_false (by decide) ?_
        intro h
        obtain ⟨r, hr, hs⟩ := hsome.mp h2
        exact h r hr hs
      · rw [if_neg h2]
        exact iff_of_true rfl (hzero.mp (Nat.eq_zero_of_not_pos h2))

/-- C1 witness: a singleton list with one fully healthy instance is
classified Healthy. -/
theorem checkComponentHealth_perKind_aggregation_witness :
    (checkComponentHealth "Istio" (ListOutcome.ok [instHealthy])).status = "Healthy" :=
  (checkComponentHealth_perKind_aggregation "Istio" [instHealthy]
      (List.cons_ne_nil _ _)).1.mpr
    (by
      intro r hr
      rw [List.mem_singleton] at hr
      subst hr
      exact ⟨by decide, fun s hs => (Option.some.inj hs).symm⟩)

/-! ## C2: overall health reduction -/

/-- C2: over all outcomes for the four kinds, the overall health is
Healthy iff every per-kind status is Healthy, Unhealthy iff none is, and
Degraded otherwise (some but not all). -/
theorem checkSailOperatorHealth_overall (oIstio oRevision oCNI oZTunnel : ListOutcome CRInstance) :
    (((checkSailOperatorHealth oIstio oRevision oCNI oZTunnel).overall = "Healthy") ↔
      ∀ c ∈ (checkSailOperatorHealth oIstio oRevision oCNI oZTunnel).components,
        c.status = "Healthy")
    ∧ (((checkSailOperatorHealth oIstio oRevision oCNI oZTunnel).overall = "Unhealthy") ↔
      ∀ c ∈ (checkSailOperatorHealth oIstio oRevision oCNI oZTunnel).components,
        c.status ≠ "Healthy")
    ∧ (((checkSailOperatorHealth oIstio oRevision oCNI oZTunnel).overall = "Degraded") ↔
      ((∃ c ∈ (checkSailOperatorHealth oIstio oRevision oCNI oZTunnel).components,
          c.status = "Healthy")
        ∧ ∃ c ∈ (checkSailOperatorHealth oIstio oRevision oCNI oZTunnel).components,
          c.status ≠ "Healthy")) := by
  set comps := [checkComponentHealth "Istio" oIstio,
    checkComponentHealth "IstioRevision" oRevision,
    checkComponentHealth "IstioCNI" oCNI,
    checkComponentHealth "ZTunnel" oZTunnel] with hcomps
  have hcomp : (checkSailOperatorHealth oIstio oRevision oCNI oZTunnel).components = comps := rfl
  have hov : (checkSailOperatorHealth oIstio oRevision oCNI oZTunnel).overall =
      overallHealth (comps.countP (fun c => c.status == "Healthy")) comps.length := rfl
  have hle : comps.countP (fun c => c.status == "Healthy") ≤ comps.length :=
    List.countP_le_length _
  have hpos : 0 < comps.length := by rw [hcomps]; simp
  obtain ⟨hH, hU, hD⟩ := overallHealth_eq_iff (comps.countP (fun c => c.status == "Healthy"))
    comps.length hle hpos
  rw [hcomp, hov, hH, hU, hD]
  refine ⟨?_, ?_, ?_⟩
  · rw [List.countP_eq_length]
    exact ⟨fun h c hcm => beq_iff_eq.mp (h c hcm), fun h c hcm => beq_iff_eq.mpr (h c hcm)⟩
  · rw [List.countP_eq_zero]
    exact ⟨fun h c hcm he => h c hcm (beq_iff_eq.mpr he),
      fun h c hcm hb => h c hcm (beq_iff_eq.mp hb)⟩
  · rw [List.countP_pos_iff, countP_lt_length_iff]
    exact ⟨fun ⟨⟨c, hcm, hb⟩, d, hdm, hdb⟩ =>
        ⟨⟨c, hcm, beq_iff_eq.mp hb⟩, ⟨d, hdm, fun he => hdb (beq_iff_eq.mpr he)⟩⟩,
      fun ⟨⟨c, hcm, he⟩, d, hdm, hdn⟩ =>
        ⟨⟨c, hcm, beq_iff_eq.mpr he⟩, ⟨d, hdm, fun hb => hdn (beq_iff_eq.mp hb)⟩⟩⟩

/-! ## C10 and C4: mesh workload analysis -/

theorem any_beq_iff_mem (l : List String) (a : String) :
    (l.any (fun c => c == a)) = true ↔ a ∈ l := by
  rw [List.any_eq_true]
  constructor
  · rintro ⟨x, hx, hbeq⟩
    rw [beq_iff_eq] at hbeq
    exact hbeq ▸ hx
  · intro h
    exact ⟨a, h, beq_iff_eq.mpr rfl⟩

/-- C10: in every analysis result a ready sidecar implies an injected one,
and the mesh status is exactly In Mesh when injected and ready, exactly
Mesh Issues when injected but not ready, exactly Not in Mesh when not
injected, and nothing else. -/
theorem analyzePodMeshStatus_invariant (pod : Pod) :
    ((analyzePodMeshStatus pod).sidecarReady = true →
      (analyzePodMeshStatus pod).sidecarInjected = true)
    ∧ (((analyzePodMeshStatus pod).meshStatus = "In Mesh") ↔
      ((analyzePodMeshStatus pod).sidecarInjected = true
        ∧ (analyzePodMeshStatus pod).sidecarReady = true))
    ∧ (((analyzePodMeshStatus pod).meshStatus = "Mesh Issues") ↔
      ((analyzePodMeshStatus pod).sidecarInjected = true
        ∧ (analyzePodMeshStatus pod).sidecarReady = false))
    ∧ (((analyzePodMeshStatus pod).meshStatus = "Not in Mesh") ↔
      (analyzePodMeshStatus pod).sidecarInjected = false)
    ∧ ((analyzePodMeshStatus pod).meshStatus = "In Mesh"
      ∨ (analyzePodMeshStatus pod).meshStatus = "Mesh Issues"
      ∨ (analyzePodMeshStatus pod).meshStatus = "Not in Mesh") := by
  simp only [analyzePodMeshStatus]
  cases hsi : pod.containers.any (fun c => c == "istio-proxy") with
  | false => simp
  | true =>
    cases hfind : pod.containerStatuses.find? (fun cs => cs.name == "istio-proxy") with
    | none => simp
    | some cs =>
      cases hr : cs.ready with
      | false => simp [hr]
      | true => simp [hr]

/-- C4: a pod with an istio-proxy container and the injection entry set to
false reports an issue; a pod with the entry set to true and no such
container reports an issue; a pod with no injection entry and no such
container reports mesh status Not in Mesh and no issue. -/
theorem analyzePodMeshStatus_meshAnalysis (pod : Pod) :
    (∀ annos, "istio-proxy" ∈ pod.containers → pod.annos = some annos →
      goMapGet annos "sidecar.istio.io/inject" = "false" →
      (analyzePodMeshStatus pod).issues ≠ [])
    ∧ (∀ annos, "istio-proxy" ∉ pod.containers → pod.annos = some annos →
      goMapGet annos "sidecar.istio.io/inject" = "true" →
      (analyzePodMeshStatus pod).issues ≠ [])
    ∧ ("istio-proxy" ∉ pod.containers →
      (∀ annos, pod.annos = some annos →
        annos.find? (fun kv => kv.1 == "sidecar.istio.io/inject") = none) →
      ((analyzePodMeshStatus pod).meshStatus = "Not in Mesh"
        ∧ (analyzePodMeshStatus pod).issues = [])) := by
  refine ⟨?_, ?_, ?_⟩
  · intro annos hmem hannos hinj
    have hsi : pod.containers.any (fun c => c == "istio-proxy") = true :=
      (any_beq_iff_mem _ _).mpr hmem
    simp only [analyzePodMeshStatus, hsi, hannos, hinj]
    simp [List.append_eq_nil]
  · intro annos hnm hannos hinj
    have hsi : pod.containers.any (fun c => c == "istio-proxy") = false :=
      Bool.eq_false_iff.mpr (fun h => hnm ((any_beq_iff_mem _ _).mp h))
    simp only [analyzePodMeshStatus, hsi, hannos, hinj]
    simp [List.append_eq_nil]
  · intro hnm hnofind
    have hsi : pod.containers.any (fun c => c == "istio-proxy") = false :=
      Bool.eq_false_iff.mpr (fun h => hnm ((any_beq_iff_mem _ _).mp h))
    cases hpa : pod.annos with
    | none => simp [analyzePodMeshStatus, hsi, hpa]
    | some annos =>
      have hf := hnofind annos hpa
      simp [analyzePodMeshStatus, hsi, hpa, goMapGet, hf]

/-- C4 witness at three concrete pods. -/
theorem analyzePodMeshStatus_meshAnalysis_witness :
    ((analyzePodMeshStatus podSidecarDisabled).issues ≠ []
      ∧ (analyzePodMeshStatus podMissingSidecar).issues ≠ [])
    ∧ ((analyzePodMeshStatus podPlain).meshStatus = "Not in Mesh"
      ∧ (analyzePodMeshStatus podPlain).issues = []) :=
  ⟨⟨(analyzePodMeshStatus_meshAnalysis podSidecarDisabled).1
      [("sidecar.istio.io/inject", "false")] (by decide) rfl (by decide),
    (analyzePodMeshStatus_meshAnalysis podMissingSidecar).2.1
      [("sidecar.istio.io/inject", "true")] (by decide) rfl (by decide)⟩,
    (analyzePodMeshStatus_meshAnalysis podPlain).2.2 (by decide)
      (fun a ha => by
        simp only [podPlain] at ha
        cases ha
        decide)⟩

/-! ## C5: operation-boundary error recovery -/

/-- C5: when the cluster client fails, each operation folds the failure
into a descriptive text result and returns a nil Go-level error; the
health checker additionally folds per-kind query failures into an Error
status with an explanatory issue. -/
theorem operationBoundary_errorRecovery
    (e nspaceArg labelSelector typeFilter reasonFilter : String)
    (p : GetPodLogsParams) (scanErr : Option String)
    (oIstio oRevision oCNI oZTunnel : ListOutcome CRInstance)
    (getOutcome : Except String NamespaceObj)
    (listOutcome : Except String (List NamespaceObj))
    (hns : p.nspace ≠ "") (hpod : p.podName ≠ "") :
    ((listPods nspaceArg labelSelector (Except.error e)).goError = none
      ∧ (listPods nspaceArg labelSelector (Except.error e)).textOutput
        = "Error listing pods: " ++ e)
    ∧ ((listEvents typeFilter reasonFilter (Except.error e)).goError = none
      ∧ (listEvents typeFilter reasonFilter (Except.error e)).textOutput
        = "Error listing events: " ++ e)
    ∧ ((getPodLogs p (Except.error e) scanErr).goError = none
      ∧ (getPodLogs p (Except.error e) scanErr).textOutput
        = "Error getting logs for pod \x27" ++ p.podName ++ "\x27 in namespace \x27"
          ++ p.nspace ++ "\x27: " ++ e)
    ∧ ((getNamespaceDetails nspaceArg getOutcome listOutcome).goError = none)
    ∧ ((checkSailOperatorHealth oIstio oRevision oCNI oZTunnel).goError = none)
    ∧ ((checkComponentHealth "Istio" (ListOutcome.otherErr e)).status = "Error"
      ∧ ("Failed to query Istio resources: " ++ e)
          ∈ (checkComponentHealth "Istio" (ListOutcome.otherErr e)).issues) := by
  refine ⟨⟨rfl, rfl⟩, ⟨rfl, rfl⟩, ⟨?_, ?_⟩, ?_, rfl, rfl, ?_⟩
  · simp [getPodLogs, hns, hpod]
  · simp [getPodLogs, hns, hpod]
  · unfold getNamespaceDetails
    by_cases h : nspaceArg ≠ ""
    · rw [if_pos h]; cases getOutcome <;> rfl
    · rw [if_neg h]; cases listOutcome <;> rfl
  · exact List.mem_singleton.mpr rfl

/-- C5 witness at concrete inputs: the log handler converts a stream
error into text and a nil Go error. -/
theorem operationBoundary_errorRecovery_witness :
    (getPodLogs logsParamsFull (Except.error "boom") none).goError = none
    ∧ (getPodLogs logsParamsFull (Except.error "boom") none).textOutput
      = "Error getting logs for pod \x27" ++ logsParamsFull.podName
        ++ "\x27 in namespace \x27" ++ logsParamsFull.nspace ++ "\x27: " ++ "boom" :=
  (operationBoundary_errorRecovery "boom" "shop" "" "" "" logsParamsFull none
    (ListOutcome.otherErr "boom") (ListOutcome.otherErr "boom")
    (ListOutcome.otherErr "boom") (ListOutcome.otherErr "boom")
    (Except.error "boom") (Except.error "boom")
    (by decide) (by decide)).2.2.1

/-! ## C6: count consistency -/

theorem goString_length_append (a b : String) : (a ++ b).length = a.length + b.length := by
  cases a with
  | mk la =>
    cases b with
    | mk lb =>
      show (String.mk (la ++ lb)).length = la.length + lb.length
      exact List.length_append la lb

theorem goString_append_assoc (a b c : String) : (a ++ b) ++ c = a ++ (b ++ c) := by
  cases a with
  | mk la =>
    cases b with
    | mk lb =>
      cases c with
      | mk lc =>
        show String.mk ((la ++ lb) ++ lc) = String.mk (la ++ (lb ++ lc))
        rw [List.append_assoc]

/-- C6: the structured record of a listing operation carries a Count field
equal to the length of its list, and for a nonempty list the text header
prints that same count. -/
theorem listCount_consistency (nspaceArg labelSelector typeFilter reasonFilter : String)
    (podItems : List Pod) (eventItems : List Event) :
    (∀ rec, (listPods nspaceArg labelSelector (Except.ok podItems)).record = some rec →
      (rec.count = rec.pods.length
        ∧ (rec.pods ≠ [] → ∃ rest,
            (listPods nspaceArg labelSelector (Except.ok podItems)).textOutput
              = "Found " ++ toString rec.count ++ " pods:\n\n" ++ rest)))
    ∧ (∀ rec, (listEvents typeFilter reasonFilter (Except.ok eventItems)).record = some rec →
      (rec.count = rec.events.length
        ∧ (rec.events ≠ [] → ∃ rest,
            (listEvents typeFilter reasonFilter (Except.ok eventItems)).textOutput
              = "Found " ++ toString rec.count ++ " events:\n\n" ++ rest))) := by
  constructor
  · intro rec hrec
    obtain rfl := Option.some.inj hrec
    refine ⟨rfl, fun hne => ?_⟩
    have hlen : ¬ ((podItems.map podInfoOf).length = 0) := by
      simpa [List.length_eq_zero] using hne
    refine ⟨listPodsHeader ++ String.join ((podItems.map podInfoOf).map podRow), ?_⟩
    show listPodsText nspaceArg labelSelector (podItems.map podInfoOf) = _
    rw [listPodsText, if_neg hlen]
    rw [goString_append_assoc]
  · intro rec hrec
    obtain rfl := Option.some.inj hrec
    refine ⟨rfl, fun hne => ?_⟩
    have hlen : ¬ ((((eventItems.filter (eventKept typeFilter reasonFilter))).map
        eventInfoOf).length = 0) := by
      simpa [List.length_eq_zero] using hne
    refine ⟨listEventsHeader ++ String.join (((eventItems.filter
      (eventKept typeFilter reasonFilter)).map eventInfoOf).map eventRow), ?_⟩
    show listEventsText ((eventItems.filter (eventKept typeFilter reasonFilter)).map
      eventInfoOf) = _
    rw [listEventsText, if_neg hlen]
    rw [goString_append_assoc]

/-- C6 witness at one-element pod and event lists. -/
theorem listCount_consistency_witness :
    (recPods.count = recPods.pods.length
      ∧ ∃ rest, (listPods "" "" (Except.ok [podPlain])).textOutput
        = "Found " ++ toString recPods.count ++ " pods:\n\n" ++ rest)
    ∧ (recEvents.count = recEvents.events.length
      ∧ ∃ rest, (listEvents "" "" (Except.ok [eventPulled])).textOutput
        = "Found " ++ toString recEvents.count ++ " events:\n\n" ++ rest) :=
  ⟨(fun h => ⟨h.1, h.2 (List.cons_ne_nil _ _)⟩)
      ((listCount_consistency "" "" "" "" [podPlain] [eventPulled]).1 recPods rfl),
    (fun h => ⟨h.1, h.2 (List.cons_ne_nil _ _)⟩)
      ((listCount_consistency "" "" "" "" [podPlain] [eventPulled]).2 recEvents rfl)⟩

/-! ## C7: truncation affects display only -/

/-- C7: a name at most the column width long is displayed unchanged; a
longer one is displayed as a prefix of itself followed by an ellipsis,
exactly the column width long; and the structured record always keeps the
full names. -/
theorem truncation_displayOnly (s : String) (maxLen : Nat) (h3 : 3 ≤ maxLen) :
    (s.length ≤ maxLen → truncateString s maxLen = s)
    ∧ (maxLen < s.length → ∃ t : String, t.data <+: s.data
        ∧ truncateString s maxLen = t ++ "..."
        ∧ (truncateString s maxLen).length = maxLen)
    ∧ (∀ nspaceArg labelSelector podItems rec,
        (listPods nspaceArg labelSelector (Except.ok podItems)).record = some rec →
        rec.pods.map (fun q => q.name) = podItems.map (fun q => q.name)) := by
  refine ⟨?_, ?_, ?_⟩
  · intro hle
    unfold truncateString
    rw [if_pos hle]
  · intro hlt
    have hnle : ¬ (s.length ≤ maxLen) := Nat.not_le_of_lt hlt
    have hdata : s.data.length = s.length := rfl
    have hmin : (maxLen - 3) ≤ s.data.length := by omega
    refine ⟨String.mk (s.data.take (maxLen - 3)), List.take_prefix _ _, ?_, ?_⟩
    · unfold truncateString
      rw [if_neg hnle]
    · unfold truncateString
      rw [if_neg hnle, goString_length_append]
      have h1 : (String.mk (s.data.take (maxLen - 3))).length
          = (s.data.take (maxLen - 3)).length := rfl
      have h2 : ("..." : String).length = 3 := rfl
      rw [h1, h2, List.length_take, Nat.min_eq_left hmin]
      omega
  · intro nspaceArg labelSelector podItems rec hrec
    obtain rfl := Option.some.inj hrec
    show (podItems.map podInfoOf).map (fun q => q.name) = _
    rw [List.map_map]
    rfl

/-- C7 witness: a short and a long concrete name, and the one-pod record. -/
theorem truncation_displayOnly_witness :
    (truncateString "api" 29 = "api")
    ∧ (∃ t : String, t.data <+: longPodName.data
        ∧ truncateString longPodName 29 = t ++ "..."
        ∧ (truncateString longPodName 29).length = 29)
    ∧ recPods.pods.map (fun q => q.name) = [podPlain].map (fun q => q.name) :=
  ⟨(truncation_displayOnly "api" 29 (by decide)).1 (by decide),
    (truncation_displayOnly longPodName 29 (by decide)).2.1 (by decide),
    (truncation_displayOnly longPodName 29 (by decide)).2.2 "" "" [podPlain] recPods rfl⟩

/-! ## C8: namespace detail lookup -/

/-- C8: an empty namespace argument describes all listed namespaces; a
specific name yields exactly that namespace's detail record, or an error
report carrying the client's message when the get fails. -/
theorem getNamespaceDetails_lookup (nspaceArg : String)
    (getOutcome : Except String NamespaceObj)
    (listOutcome : Except String (List NamespaceObj)) :
    (nspaceArg = "" → ∀ l, listOutcome = Except.ok l →
      (getNamespaceDetails nspaceArg getOutcome listOutcome).nsDetails
        = l.map namespaceDetailOf)
    ∧ (nspaceArg ≠ "" → ∀ ns, getOutcome = Except.ok ns →
      (getNamespaceDetails nspaceArg getOutcome listOutcome).nsDetails
        = [namespaceDetailOf ns])
    ∧ (nspaceArg ≠ "" → ∀ e, getOutcome = Except.error e →
      ((getNamespaceDetails nspaceArg getOutcome listOutcome).nsDetails = []
        ∧ (getNamespaceDetails nspaceArg getOutcome listOutcome).textOutput
          = "Error getting namespace " ++ nspaceArg ++ ": " ++ e)) := by
  refine ⟨?_, ?_, ?_⟩
  · intro h0 l hl
    subst h0
    subst hl
    simp [getNamespaceDetails]
  · intro hne ns hg
    subst hg
    simp [getNamespaceDetails, hne]
  · intro hne e hg
    subst hg
    simp [getNamespaceDetails, hne]

/-- C8 witness: all-namespaces listing, a specific hit, and a missing
namespace. -/
theorem getNamespaceDetails_lookup_witness :
    ((getNamespaceDetails "" (Except.error "boom") (Except.ok [nsShop])).nsDetails
      = [nsShop].map namespaceDetailOf)
    ∧ ((getNamespaceDetails "shop" (Except.ok nsShop) (Except.ok [])).nsDetails
      = [namespaceDetailOf nsShop])
    ∧ ((getNamespaceDetails "ghost" (Except.error "namespaces \"ghost\" not found")
        (Except.ok [])).nsDetails = []
      ∧ (getNamespaceDetails "ghost" (Except.error "namespaces \"ghost\" not found")
          (Except.ok [])).textOutput
        = "Error getting namespace " ++ "ghost" ++ ": "
          ++ "namespaces \"ghost\" not found") :=
  ⟨(getNamespaceDetails_lookup "" (Except.error "boom") (Except.ok [nsShop])).1
      rfl [nsShop] rfl,
    (getNamespaceDetails_lookup "shop" (Except.ok nsShop) (Except.ok [])).2.1
      (by decide) nsShop rfl,
    (getNamespaceDetails_lookup "ghost" (Except.error "namespaces \"ghost\" not found")
      (Except.ok [])).2.2 (by decide) "namespaces \"ghost\" not found" rfl⟩

/-! ## C9: validation precedes cluster access -/

/-- C9: a log request with an empty namespace or pod name yields the
corresponding validation message and issues no cluster call. -/
theorem getPodLogs_validationPrecedesCluster (p : GetPodLogsParams)
    (streamOutcome : Except String (List String)) (scanErr : Option String)
    (h : p.nspace = "" ∨ p.podName = "") :
    (getPodLogs p streamOutcome scanErr).clusterCall = none
    ∧ (getPodLogs p streamOutcome scanErr).textOutput
      = (if p.nspace = "" then "Error: namespace parameter is required"
         else "Error: pod_name parameter is required") := by
  by_cases hns : p.nspace = ""
  · constructor
    · simp [getPodLogs, hns]
    · simp [getPodLogs, hns]
  · have hpod : p.podName = "" := h.resolve_left hns
    constructor
    · simp [getPodLogs, hns, hpod]
    · simp [getPodLogs, hns, hpod]

/-- C9 witness at a request missing its pod name. -/
theorem getPodLogs_validationPrecedesCluster_witness :
    (getPodLogs logsParamsNoPod (Except.ok ["line"]) none).clusterCall = none
    ∧ (getPodLogs logsParamsNoPod (Except.ok ["line"]) none).textOutput
      = (if logsParamsNoPod.nspace = "" then "Error: namespace parameter is required"
         else "Error: pod_name parameter is required") :=
  getPodLogs_validationPrecedesCluster logsParamsNoPod (Except.ok ["line"]) none
    (Or.inr rfl)

end SailOp
